import Mathlib

/-!
Shallow embedding of the fetch–cache–classify pipeline of the movie genre
classification system (`config.py`, `api_handler.py`, `movie_classifier.py`).

Python strings are modelled as Lean `String`; the string methods the source
uses (`lower`, `strip`, `replace`, `split`, `join`) are given explicit
character-level definitions mirroring Python semantics so that all
definitions reduce in the kernel.  Python `None` is `Option.none`; a Python
`float` result (`success_rate`) is modelled as an exact rational `ℚ`.
The filesystem cache is a map from cache key to file contents; the network
is an oracle `String → NetResult` in an environment record; exceptions in
the source are modelled by the corresponding constructor of `NetResult` or
cache-file state, since every `except` clause in the source swallows the
exception into a `None`/fall-through result.
-/

namespace MovieSpec

/-- Python `s.lower()`, character by character (ASCII case folding). -/
def pyLower (s : String) : String := ⟨s.data.map Char.toLower⟩

/-- Python `s.strip()`: drop leading and trailing whitespace
(`title.strip()` in `classify_movies`). -/
def pyStrip (s : String) : String :=
  ⟨((s.data.dropWhile Char.isWhitespace).reverse.dropWhile Char.isWhitespace).reverse⟩

/-- The en-dash character appearing in OMDb year ranges such as `"2015–2019"`. -/
def enDash : Char := '–'

/-- Python `s.replace(endash, "")` from `get_movie_data`: replacing every
occurrence of a one-character pattern by the empty string deletes every
occurrence of that character. -/
def replaceEnDash (l : List Char) : List Char := l.filter (fun c => c ≠ enDash)

/-- Python `s.split(endash)` from `get_movie_data` (one-character separator):
split at every occurrence of the separator; splitting the empty string gives
a list holding one empty string. -/
def splitEnDash : List Char → List (List Char)
  | [] => [[]]
  | c :: rest =>
    if c = enDash then [] :: splitEnDash rest
    else
      match splitEnDash rest with
      | [] => [[c]]
      | h :: t => (c :: h) :: t

/-- `omdb_data.get("Year", "Unknown").replace(endash, "").split(endash)[0]`
(`api_handler.py` line 89), applied to the `Year` value (the caller supplies
the `"Unknown"` default).  Note the source replaces the en-dash away BEFORE
splitting on it, so the final `[0]` indexes a one-element list. -/
def yearOf (y : String) : String := ⟨(splitEnDash (replaceEnDash y.data)).headD []⟩

/-- Python `s.split(", ")` from `get_movie_data` line 88, specialized to its
constant two-character separator: scan left to right, consume the separator
at each match; a string with no separator yields a one-element list. -/
def splitCommaSpace : List Char → List (List Char)
  | [] => [[]]
  | [c] => [[c]]
  | c :: d :: rest =>
    if c = ',' ∧ d = ' ' then [] :: splitCommaSpace rest
    else
      match splitCommaSpace (d :: rest) with
      | [] => [[c]]
      | h :: t => (c :: h) :: t

/-- `omdb_data.get("Genre", "").split(", ") if omdb_data.get("Genre") else []`
(`api_handler.py` line 88): an absent or empty (falsy) `Genre` yields the
empty list, otherwise the comma-space split of the genre string. -/
def genresOf (genre : Option String) : List String :=
  match genre with
  | some g => if g = "" then [] else (splitCommaSpace g.data).map (fun l => (⟨l⟩ : String))
  | none => []

/-- Python `", ".join(genres)` from `export_to_dataframe` line 76. -/
def joinCommaSpace (l : List String) : String :=
  ⟨List.intercalate (", ".data) (l.map String.data)⟩

/-- `DEFAULT_GENRES` from `config.py`. -/
def DEFAULT_GENRES : List String :=
  ["Action", "Adventure", "Animation", "Comedy", "Crime",
   "Documentary", "Drama", "Family", "Fantasy", "History",
   "Horror", "Music", "Mystery", "Romance", "Science Fiction",
   "TV Movie", "Thriller", "War", "Western"]

/-- The fields of an OMDb JSON payload that the source reads via `.get`;
each is `none` when the key is absent from the payload. -/
structure OmdbPayload where
  Response : Option String
  Title : Option String
  Genre : Option String
  Year : Option String
  Plot : Option String
  imdbRating : Option String
deriving DecidableEq, Repr

/-- State of the cache file for one key, as `_load_from_cache` and
`search_movie_omdb` see it: `unreadable` = the file exists but opening or
JSON-parsing raises (swallowed, treated as a miss); `noOmdbKey` = the file
parses to a dict without an `omdb` entry (also a miss at line 52);
`omdbEntry d` = a dict wrapping payload `d` under the `omdb` key, as written
by `_save_to_cache`. -/
inductive CacheFile where
  | unreadable : CacheFile
  | noOmdbKey : CacheFile
  | omdbEntry : OmdbPayload → CacheFile
deriving DecidableEq, Repr

/-- The on-disk cache: `none` = no file for that key.  The key of
`_get_cache_path` is `md5(title.lower()).hexdigest()`; MD5 here is a fixed
deterministic function of the lowercased title, so we model the key as the
lowercased title itself (`cacheKey`). -/
def Cache : Type := String → Option CacheFile

/-- Cache key of a title: deterministic function of `movie_title.lower()`
(`_get_cache_path`, `api_handler.py` lines 19–23). -/
def cacheKey (movie_title : String) : String := pyLower movie_title

/-- Writing one cache file (`_save_to_cache` when the write succeeds). -/
def cacheWrite (c : Cache) (k : String) (v : CacheFile) : Cache :=
  fun k2 => if k2 = k then some v else c k2

/-- Outcome of one `requests.get` to OMDb: `error` covers every raised
exception that `search_movie_omdb` catches (connection error, timeout,
`raise_for_status` on a non-2xx reply, JSON decode failure); `ok d` is a
parsed JSON payload. -/
inductive NetResult where
  | error : NetResult
  | ok : OmdbPayload → NetResult
deriving DecidableEq, Repr

/-- The environment of the handler: `omdb_api_key` is `OMDB_API_KEY` from
`config.py` (`""` models a falsy/absent key; `"4bcd5aba"` is the hard-coded
placeholder both in `config.py` and in the guard of `search_movie_omdb`);
`network` maps the requested title to the outcome of the HTTP GET;
`cacheWriteOk` says whether the file write of `_save_to_cache` succeeds (on
failure the exception is swallowed and the cache is unchanged). -/
structure Env where
  omdb_api_key : String
  network : String → NetResult
  cacheWriteOk : Bool

/-- Result of one handler call in the embedding: the returned Python value,
the cache state afterwards, and how many network requests were issued. -/
structure FetchOut (α : Type) where
  result : α
  cache : Cache
  netCalls : Nat

/-- `MovieAPIHandler.search_movie_omdb` (`api_handler.py` lines 45–77):
reject a falsy or placeholder key; else try the cache (a readable file with
an `omdb` entry is a hit); else one HTTP GET — on an exception or a
payload whose `Response` is not `"True"` return `None`, otherwise
best-effort cache the payload and return it. -/
def search_movie_omdb (env : Env) (cache : Cache) (movie_title : String) :
    FetchOut (Option OmdbPayload) :=
  if env.omdb_api_key = "" ∨ env.omdb_api_key = "4bcd5aba" then
    ⟨none, cache, 0⟩
  else
    match cache (cacheKey movie_title) with
    | some (CacheFile.omdbEntry d) => ⟨some d, cache, 0⟩
    | _ =>
      match env.network movie_title with
      | NetResult.error => ⟨none, cache, 1⟩
      | NetResult.ok data =>
        if data.Response = some "True" then
          ⟨some data,
           if env.cacheWriteOk then
             cacheWrite cache (cacheKey movie_title) (CacheFile.omdbEntry data)
           else cache,
           1⟩
        else ⟨none, cache, 1⟩

/-- The `movie_data` dict built by `get_movie_data`: every key is always
present (`rating` and the raw `omdb` payload may be `None`/absent-valued). -/
structure MovieRecord where
  title : String
  genres : List String
  year : String
  overview : String
  rating : Option String
  source : String
  omdb : Option OmdbPayload
deriving DecidableEq, Repr

/-- The minimal "not found" dict of `get_movie_data` lines 96–103. -/
def defaultRecord (movie_title : String) : MovieRecord :=
  { title := movie_title
    genres := ["Unknown"]
    year := "Unknown"
    overview := "No information available"
    rating := none
    source := "Not Found"
    omdb := none }

/-- The record dict populated from a found OMDb payload (`get_movie_data`
lines 85–92): title falls back to the input title, genres come from the
comma-space split, the year is the replace-then-split value, the raw payload
is kept under the `omdb` key. -/
def foundRecord (movie_title : String) (d : OmdbPayload) : MovieRecord :=
  { title := d.Title.getD movie_title
    genres := genresOf d.Genre
    year := yearOf (d.Year.getD "Unknown")
    overview := d.Plot.getD ""
    rating := d.imdbRating
    source := "OMDb"
    omdb := some d }

/-- `MovieAPIHandler.get_movie_data` (`api_handler.py` lines 79–105): map a
found payload into the record dict, else return the minimal default. -/
def get_movie_data (env : Env) (cache : Cache) (movie_title : String) :
    FetchOut MovieRecord :=
  match search_movie_omdb env cache movie_title with
  | ⟨some d, cache2, n⟩ => ⟨foundRecord movie_title d, cache2, n⟩
  | ⟨none, cache2, n⟩ => ⟨defaultRecord movie_title, cache2, n⟩

/-- The `classified_movies` dict: genre name to list of records.  Its key
set is fixed at initialization (`DEFAULT_GENRES` plus `"Unknown"`) and never
grows, so we model it as a total function and test key membership against
`bucketKeys`. -/
def Buckets : Type := String → List MovieRecord

/-- The key set of `classified_movies`: `genre to empty list over
DEFAULT_GENRES` comprehension plus the extra `"Unknown"` bucket (lines 14–15). -/
def bucketKeys : List String := DEFAULT_GENRES ++ ["Unknown"]

/-- All buckets empty, as at the start of `classify_movies`. -/
def emptyBuckets : Buckets := fun _ => []

/-- `classified_movies[k].append(m)`. -/
def addToBucket (b : Buckets) (k : String) (m : MovieRecord) : Buckets :=
  fun g => if g = k then b g ++ [m] else b g

/-- The bucketing step of `classify_movies` for one record (lines 28–36):
an empty genre list goes to `"Unknown"`; otherwise each genre goes to its
own bucket when it is a key of `classified_movies`, else to `"Unknown"`. -/
def fileRecord (b : Buckets) (m : MovieRecord) : Buckets :=
  if m.genres = [] then addToBucket b "Unknown" m
  else
    m.genres.foldl
      (fun acc g =>
        if g ∈ bucketKeys then addToBucket acc g m else addToBucket acc "Unknown" m)
      b

/-- Result of one classification run: the returned `classified_movies`
buckets, the `self.processed_movies` list, and the cache state after the
run.  (The progress callback and the fixed `time.sleep(0.1)` are external
side effects with no influence on this state and are not modelled.) -/
structure ClassifyResult where
  classified_movies : Buckets
  processed_movies : List MovieRecord
  cache : Cache

/-- The loop body of `classify_movies` over the remaining titles. -/
def classifyGo (env : Env) :
    Buckets → List MovieRecord → Cache → List String → ClassifyResult
  | b, processed, cache, [] => ⟨b, processed, cache⟩
  | b, processed, cache, title :: rest =>
    let out := get_movie_data env cache (pyStrip title)
    classifyGo env (fileRecord b out.result) (processed ++ [out.result]) out.cache rest

/-- `MovieGenreClassifier.classify_movies` (`movie_classifier.py` lines
12–41): fresh buckets and a fresh `processed_movies`, then one
fetch-append-bucket step per title in order. -/
def classify_movies (env : Env) (cache : Cache) (movie_titles : List String) :
    ClassifyResult :=
  classifyGo env emptyBuckets [] cache movie_titles

/-- The per-title records of a run, in input order, threading the cache:
the record at position `i` is exactly the one `get_movie_data` produces for
the (stripped) title at position `i` given the cache state reached then. -/
def recordsOf (env : Env) : Cache → List String → List MovieRecord
  | _, [] => []
  | cache, title :: rest =>
    let out := get_movie_data env cache (pyStrip title)
    out.result :: recordsOf env out.cache rest

/-- The statistics dict of `get_statistics` (`movie_classifier.py` lines
43–67); `success_rate` is an exact rational in place of the Python float. -/
structure Stats where
  total_movies : Nat
  found_movies : Nat
  not_found_movies : Nat
  unknown_genres : Nat
  genre_counts : String → Nat
  success_rate : ℚ

/-- The `genre_counts` dict accumulation (lines 52–58); an absent key is
count `0`, so `+= 1` and `= 1` are the same update. -/
def genreCounts (processed : List MovieRecord) : String → Nat :=
  processed.foldl
    (fun counts m =>
      m.genres.foldl (fun cs g => fun g2 => if g2 = g then cs g + 1 else cs g2) counts)
    (fun _ => 0)

/-- `MovieGenreClassifier.get_statistics`: the empty-dict early return for
an empty `processed_movies` is modelled as `none`. -/
def get_statistics (processed : List MovieRecord) : Option Stats :=
  if processed = [] then none
  else
    let total_movies := processed.length
    let found_movies := (processed.filter (fun m => m.source ≠ "Not Found")).length
    some
      { total_movies := total_movies
        found_movies := found_movies
        not_found_movies := total_movies - found_movies
        unknown_genres :=
          (processed.filter (fun m => m.genres = [] ∨ m.genres = ["Unknown"])).length
        genre_counts := genreCounts processed
        success_rate :=
          if 0 < total_movies then ((found_movies : ℚ) / (total_movies : ℚ)) * 100 else 0 }

/-- One row of the exported DataFrame.  Every `.get` in
`export_to_dataframe` carries a default, but every key is always present in
a record built by `get_movie_data`, so each cell is just the stored value;
in particular `movie.get("rating", "N/A")` returns the stored rating, which
is Python `None` (here `Option.none`) for a not-found record — the `"N/A"`
default would apply only to a dict missing the key entirely. -/
structure Row where
  Title : String
  Year : String
  Genres : String
  Rating : Option String
  Overview : String
  Source : String
deriving DecidableEq, Repr

/-- `MovieGenreClassifier.export_to_dataframe` (lines 69–82), as the list of
rows handed to the DataFrame constructor. -/
def export_to_dataframe (processed : List MovieRecord) : List Row :=
  processed.map fun movie =>
    { Title := movie.title
      Year := movie.year
      Genres := joinCommaSpace movie.genres
      Rating := movie.rating
      Overview := movie.overview
      Source := movie.source }

/-- The cache-hit test of `search_movie_omdb` lines 51–53, as a standalone
observation: `some d` iff a readable cache file with an `omdb` entry exists
for the title. -/
def cacheLookup (cache : Cache) (movie_title : String) : Option OmdbPayload :=
  match cache (cacheKey movie_title) with
  | some (CacheFile.omdbEntry d) => some d
  | _ => none

/-! ### Concrete fixtures used by witnesses and counterexamples -/

/-- An empty cache directory. -/
def noCache : Cache := fun _ => none

/-- An environment whose credential equals the hard-coded placeholder. -/
def envPlaceholder : Env :=
  { omdb_api_key := "4bcd5aba", network := fun _ => NetResult.error, cacheWriteOk := true }

/-- The OMDb payload of the Matrix scenario of the spec. -/
def matrixPayload : OmdbPayload :=
  { Response := some "True", Title := some "The Matrix",
    Genre := some "Action, Sci-Fi", Year := some "1999",
    Plot := some "A hacker learns the truth.", imdbRating := some "8.7" }

/-- A configured environment answering every lookup with the Matrix payload. -/
def envMatrix : Env :=
  { omdb_api_key := "realkey", network := fun _ => NetResult.ok matrixPayload,
    cacheWriteOk := true }

/-- A payload reporting no match (`Response` = `"False"`). -/
def noMatchPayload : OmdbPayload :=
  { Response := some "False", Title := none, Genre := none, Year := none,
    Plot := none, imdbRating := none }

/-- A configured environment answering every lookup with a no-match reply
(`Response` = `"False"`). -/
def envNoMatch : Env :=
  { omdb_api_key := "realkey", network := fun _ => NetResult.ok noMatchPayload,
    cacheWriteOk := true }

/-- A configured environment answering every lookup with a successful match
whose payload has no `Genre` key. -/
def envNoGenre : Env :=
  { omdb_api_key := "realkey",
    network := fun _ => NetResult.ok
      { Response := some "True", Title := some "X", Genre := none,
        Year := some "1999", Plot := none, imdbRating := none },
    cacheWriteOk := true }

/-- A successful-match payload whose `Year` is the en-dash range
`"2015–2019"`. -/
def rangePayload : OmdbPayload :=
  { Response := some "True", Title := some "Y", Genre := some "Drama",
    Year := some "2015–2019", Plot := none, imdbRating := none }

/-- A configured environment answering every lookup with a successful match
whose `Year` is the en-dash range `"2015–2019"`. -/
def envRange : Env :=
  { omdb_api_key := "realkey", network := fun _ => NetResult.ok rangePayload,
    cacheWriteOk := true }

/-! ### Helper lemmas -/

/-- The returned payload and the network-call count of `search_movie_omdb`
do not depend on whether the best-effort cache write succeeds. -/
theorem search_writeOk_independent (env : Env) (b : Bool) (cache : Cache) (t : String) :
    (search_movie_omdb { env with cacheWriteOk := b } cache t).result =
      (search_movie_omdb env cache t).result ∧
    (search_movie_omdb { env with cacheWriteOk := b } cache t).netCalls =
      (search_movie_omdb env cache t).netCalls := by
  obtain ⟨key, net, cw⟩ := env
  by_cases hk : key = "" ∨ key = "4bcd5aba"
  · simp [search_movie_omdb, hk]
  · cases hc : cache (cacheKey t) with
    | some f =>
      cases f with
      | omdbEntry d => simp [search_movie_omdb, hk, hc]
      | unreadable =>
        cases hn : net t with
        | error => simp [search_movie_omdb, hk, hc, hn]
        | ok d =>
          by_cases hr : d.Response = some "True" <;>
            simp [search_movie_omdb, hk, hc, hn, hr]
      | noOmdbKey =>
        cases hn : net t with
        | error => simp [search_movie_omdb, hk, hc, hn]
        | ok d =>
          by_cases hr : d.Response = some "True" <;>
            simp [search_movie_omdb, hk, hc, hn, hr]
    | none =>
      cases hn : net t with
      | error => simp [search_movie_omdb, hk, hc, hn]
      | ok d =>
        by_cases hr : d.Response = some "True" <;>
          simp [search_movie_omdb, hk, hc, hn, hr]

/-- When the search comes back `None`, `get_movie_data` builds the default
not-found record. -/
theorem get_movie_data_of_search_none (env : Env) (cache : Cache) (t : String)
    (h : (search_movie_omdb env cache t).result = none) :
    (get_movie_data env cache t).result = defaultRecord t := by
  rcases hs : search_movie_omdb env cache t with ⟨res, c2, n⟩
  rw [hs] at h
  simp only at h
  subst h
  rw [get_movie_data, hs]

/-- A cache miss followed by a transport error makes the search return
`None`. -/
theorem search_none_of_error (env : Env) (cache : Cache) (t : String)
    (hc : cacheLookup cache t = none) (hn : env.network t = NetResult.error) :
    (search_movie_omdb env cache t).result = none := by
  by_cases hk : env.omdb_api_key = "" ∨ env.omdb_api_key = "4bcd5aba"
  · simp [search_movie_omdb, hk]
  · cases hcc : cache (cacheKey t) with
    | none => simp [search_movie_omdb, hk, hcc, hn]
    | some f =>
      cases f with
      | omdbEntry d => simp [cacheLookup, hcc] at hc
      | unreadable => simp [search_movie_omdb, hk, hcc, hn]
      | noOmdbKey => simp [search_movie_omdb, hk, hcc, hn]

/-- A cache miss followed by a payload whose `Response` is not the literal
`"True"` makes the search return `None`. -/
theorem search_none_of_noMatch (env : Env) (cache : Cache) (t : String)
    (d : OmdbPayload) (hc : cacheLookup cache t = none)
    (hn : env.network t = NetResult.ok d) (hr : d.Response ≠ some "True") :
    (search_movie_omdb env cache t).result = none := by
  by_cases hk : env.omdb_api_key = "" ∨ env.omdb_api_key = "4bcd5aba"
  · simp [search_movie_omdb, hk]
  · cases hcc : cache (cacheKey t) with
    | none => simp [search_movie_omdb, hk, hcc, hn, hr]
    | some f =>
      cases f with
      | omdbEntry d2 => simp [cacheLookup, hcc] at hc
      | unreadable => simp [search_movie_omdb, hk, hcc, hn, hr]
      | noOmdbKey => simp [search_movie_omdb, hk, hcc, hn, hr]

/-- The record `get_movie_data` returns depends on the environment only
through the search result. -/
theorem get_movie_data_result_congr (env1 env2 : Env) (c1 c2 : Cache) (t : String)
    (h : (search_movie_omdb env1 c1 t).result = (search_movie_omdb env2 c2 t).result) :
    (get_movie_data env1 c1 t).result = (get_movie_data env2 c2 t).result := by
  rcases hs1 : search_movie_omdb env1 c1 t with ⟨res1, d1, n1⟩
  rcases hs2 : search_movie_omdb env2 c2 t with ⟨res2, d2, n2⟩
  rw [hs1, hs2] at h
  simp only at h
  subst h
  cases res1 <;> rw [get_movie_data, hs1, get_movie_data, hs2]

/-! ### Claim theorems -/

/-- Claim C5: every record `get_movie_data` returns with source
`"Not Found"` is the full default record — year `"Unknown"`, rating absent,
genres `["Unknown"]`, overview `"No information available"`. -/
theorem C5_notFound_record_is_default (env : Env) (cache : Cache) (t : String)
    (h : (get_movie_data env cache t).result.source = "Not Found") :
    (get_movie_data env cache t).result.year = "Unknown" ∧
    (get_movie_data env cache t).result.rating = none ∧
    (get_movie_data env cache t).result.genres = ["Unknown"] ∧
    (get_movie_data env cache t).result.overview = "No information available" := by
  rcases hs : search_movie_omdb env cache t with ⟨res, c2, n⟩
  cases res with
  | some d =>
    rw [get_movie_data, hs] at h
    simp [foundRecord] at h
  | none =>
    rw [get_movie_data, hs]
    exact ⟨rfl, rfl, rfl, rfl⟩

/-- Claim C5 witness: the default record of a placeholder-credential fetch
satisfies the hypothesis and the conclusion. -/
theorem C5_notFound_record_is_default_witness :
    (get_movie_data envPlaceholder noCache "x").result.source = "Not Found" ∧
    (get_movie_data envPlaceholder noCache "x").result.year = "Unknown" ∧
    (get_movie_data envPlaceholder noCache "x").result.rating = none ∧
    (get_movie_data envPlaceholder noCache "x").result.genres = ["Unknown"] ∧
    (get_movie_data envPlaceholder noCache "x").result.overview = "No information available" :=
  ⟨by decide, C5_notFound_record_is_default envPlaceholder noCache "x" (by decide)⟩

/-- Claim C7: with a falsy or placeholder credential, `search_movie_omdb`
returns `None` at once — no network request, cache untouched — and
`get_movie_data` returns the default not-found record for every title. -/
theorem C7_placeholder_key_no_network (env : Env) (cache : Cache) (t : String)
    (h : env.omdb_api_key = "" ∨ env.omdb_api_key = "4bcd5aba") :
    search_movie_omdb env cache t = ⟨none, cache, 0⟩ ∧
    (get_movie_data env cache t).result = defaultRecord t ∧
    (get_movie_data env cache t).netCalls = 0 := by
  have hs : search_movie_omdb env cache t = ⟨none, cache, 0⟩ := by
    unfold search_movie_omdb
    rw [if_pos h]
  refine ⟨hs, ?_, ?_⟩ <;> rw [get_movie_data, hs]

/-- Claim C7 witness: at the placeholder environment and a concrete title,
the hypothesis holds and the conclusions evaluate as stated. -/
theorem C7_placeholder_key_no_network_witness :
    (envPlaceholder.omdb_api_key = "" ∨ envPlaceholder.omdb_api_key = "4bcd5aba") ∧
    (get_movie_data envPlaceholder noCache "Inception").result = defaultRecord "Inception" ∧
    (get_movie_data envPlaceholder noCache "Inception").netCalls = 0 :=
  ⟨Or.inr (by decide),
   (C7_placeholder_key_no_network envPlaceholder noCache "Inception" (Or.inr (by decide))).2⟩

/-- Claim C2: `get_movie_data` never fails outward (it is a total function
of the modelled environment — every `except` in the source swallows the
exception): a rejected credential, a cache miss followed by a transport
error, or a cache miss followed by a payload whose `Response` is not
`"True"` each yield the default not-found record (as does any `None`
search), and a cache write failure never changes the returned record. -/
theorem C2_all_failures_degrade_to_default (env : Env) (cache : Cache) (t : String) :
    ((search_movie_omdb env cache t).result = none →
      (get_movie_data env cache t).result = defaultRecord t) ∧
    ((env.omdb_api_key = "" ∨ env.omdb_api_key = "4bcd5aba") →
      (get_movie_data env cache t).result = defaultRecord t) ∧
    (cacheLookup cache t = none → env.network t = NetResult.error →
      (get_movie_data env cache t).result = defaultRecord t) ∧
    (∀ d, cacheLookup cache t = none → env.network t = NetResult.ok d →
      d.Response ≠ some "True" →
      (get_movie_data env cache t).result = defaultRecord t) ∧
    ((get_movie_data { env with cacheWriteOk := true } cache t).result =
      (get_movie_data { env with cacheWriteOk := false } cache t).result) := by
  refine ⟨get_movie_data_of_search_none env cache t, ?_, ?_, ?_, ?_⟩
  · intro hk
    refine get_movie_data_of_search_none env cache t ?_
    unfold search_movie_omdb
    rw [if_pos hk]
  · intro hc hn
    exact get_movie_data_of_search_none env cache t (search_none_of_error env cache t hc hn)
  · intro d hc hn hr
    exact get_movie_data_of_search_none env cache t (search_none_of_noMatch env cache t d hc hn hr)
  · refine get_movie_data_result_congr _ _ _ _ _ ?_
    rw [(search_writeOk_independent env true cache t).1,
      (search_writeOk_independent env false cache t).1]

/-- Claim C2 witness: the placeholder-credential, transport-error and
no-match failure modes at concrete inputs, each yielding the default
record, and a concrete cache-write-failure comparison. -/
theorem C2_all_failures_degrade_to_default_witness :
    ((envPlaceholder.omdb_api_key = "" ∨ envPlaceholder.omdb_api_key = "4bcd5aba") ∧
      (get_movie_data envPlaceholder noCache "x").result = defaultRecord "x") ∧
    (cacheLookup noCache "y" = none ∧ envNoMatch.network "y" = NetResult.ok noMatchPayload ∧
      noMatchPayload.Response ≠ some "True" ∧
      (get_movie_data envNoMatch noCache "y").result = defaultRecord "y") ∧
    ((get_movie_data { envNoMatch with cacheWriteOk := true } noCache "y").result =
      (get_movie_data { envNoMatch with cacheWriteOk := false } noCache "y").result) :=
  ⟨⟨Or.inr (by decide),
    (C2_all_failures_degrade_to_default envPlaceholder noCache "x").2.1 (Or.inr (by decide))⟩,
   ⟨by decide, by decide, by decide,
    (C2_all_failures_degrade_to_default envNoMatch noCache "y").2.2.2.1 noMatchPayload
      (by decide) (by decide) (by decide)⟩,
   (C2_all_failures_degrade_to_default envNoMatch noCache "y").2.2.2.2⟩

/-- The loop of `classify_movies` appends to `processed_movies` exactly the
per-title records, after whatever prefix was accumulated. -/
theorem classifyGo_processed (env : Env) :
    ∀ (ts : List String) (b : Buckets) (p : List MovieRecord) (cache : Cache),
      (classifyGo env b p cache ts).processed_movies = p ++ recordsOf env cache ts := by
  intro ts
  induction ts with
  | nil => intro b p cache; simp [classifyGo, recordsOf]
  | cons t rest ih =>
    intro b p cache
    simp only [classifyGo, recordsOf, ih, List.append_assoc, List.singleton_append]

/-- There is one per-title record for each input title. -/
theorem recordsOf_length (env : Env) :
    ∀ (ts : List String) (cache : Cache), (recordsOf env cache ts).length = ts.length := by
  intro ts
  induction ts with
  | nil => intro cache; rfl
  | cons t rest ih => intro cache; rw [recordsOf]; simp only [List.length_cons, ih]

/-- Claim C1: `classify_movies` appends exactly one record per input title
to `processed_movies`, in input order: the list of processed records equals
the per-title records `recordsOf` (so the record at position `i` is the one
produced for the title at position `i`), and its length equals the number
of titles. -/
theorem C1_one_record_per_title_in_order (env : Env) (cache : Cache)
    (titles : List String) :
    (classify_movies env cache titles).processed_movies = recordsOf env cache titles ∧
    (classify_movies env cache titles).processed_movies.length = titles.length := by
  have h : (classify_movies env cache titles).processed_movies =
      recordsOf env cache titles := by
    rw [classify_movies, classifyGo_processed env titles emptyBuckets [] cache]
    simp
  exact ⟨h, by rw [h, recordsOf_length]⟩

/-- Each record `get_movie_data` builds either comes from a found payload
(source `"OMDb"`) or is the default record. -/
theorem get_movie_data_genres_source (env : Env) (cache : Cache) (t : String) :
    ((get_movie_data env cache t).result.source = "Not Found" →
      (get_movie_data env cache t).result.genres = ["Unknown"]) ∧
    ((get_movie_data env cache t).result.genres = [] →
      (get_movie_data env cache t).result.source = "OMDb") := by
  rcases hs : search_movie_omdb env cache t with ⟨res, c2, n⟩
  cases res with
  | some d =>
    rw [get_movie_data, hs]
    exact ⟨fun h => by simp [foundRecord] at h, fun _ => rfl⟩
  | none =>
    rw [get_movie_data, hs]
    exact ⟨fun _ => rfl, fun h => by simp [defaultRecord] at h⟩

/-- Every member of the per-title record list is a `get_movie_data` result
for some intermediate cache state and title. -/
theorem recordsOf_mem (env : Env) :
    ∀ (ts : List String) (cache : Cache) (m : MovieRecord),
      m ∈ recordsOf env cache ts →
      ∃ cache2 t, m = (get_movie_data env cache2 t).result := by
  intro ts
  induction ts with
  | nil => intro cache m h; simp [recordsOf] at h
  | cons t rest ih =>
    intro cache m h
    rw [recordsOf] at h
    rcases List.mem_cons.mp h with h1 | h2
    · exact ⟨cache, pyStrip t, h1⟩
    · exact ih _ m h2

/-- Claim C3 (amended): in the processed sequence, a not-found record always
has genres `["Unknown"]`, but a record whose genre list is empty can occur —
exactly when the provider reported a successful match with an empty or
absent `Genre` string (source `"OMDb"`); `classify_movies` files such a
record under the `"Unknown"` bucket without normalizing its `genres`
field. -/
theorem C3_empty_genres_only_for_found (env : Env) (cache : Cache)
    (titles : List String) (m : MovieRecord)
    (hm : m ∈ (classify_movies env cache titles).processed_movies) :
    (m.source = "Not Found" → m.genres = ["Unknown"]) ∧
    (m.genres = [] → m.source = "OMDb") := by
  rw [classify_movies, classifyGo_processed env titles emptyBuckets [] cache] at hm
  simp only [List.nil_append] at hm
  obtain ⟨cache2, t, rfl⟩ := recordsOf_mem env titles cache m hm
  exact get_movie_data_genres_source env cache2 t

/-- Claim C3 witness: a concrete not-found record in a concrete run, with
genres `["Unknown"]`. -/
theorem C3_empty_genres_only_for_found_witness :
    defaultRecord "x" ∈ (classify_movies envPlaceholder noCache ["x"]).processed_movies ∧
    ((defaultRecord "x").source = "Not Found" → (defaultRecord "x").genres = ["Unknown"]) ∧
    ((defaultRecord "x").genres = [] → (defaultRecord "x").source = "OMDb") :=
  ⟨by decide,
   C3_empty_genres_only_for_found envPlaceholder noCache ["x"] (defaultRecord "x") (by decide)⟩

/-- Claim C3 counterexample: with a successful match whose payload has no
`Genre` key, the processed sequence holds a record whose `genres` is the
empty sequence, not `["Unknown"]` — refuting the claim as stated. -/
theorem C3_counterexample_empty_genres_in_processed :
    (classify_movies envNoGenre noCache ["X"]).processed_movies.map MovieRecord.genres
      = [[]] ∧
    ([[]] : List (List String)) ≠ [["Unknown"]] := by
  exact ⟨by decide, by decide⟩

/-- The bucket `classify_movies` files one genre tag under: the tag itself
when it is a key of `classified_movies`, else `"Unknown"`. -/
def bucketTarget (g : String) : String := if g ∈ bucketKeys then g else "Unknown"

/-- Appending to bucket `j` lengthens bucket `k` exactly when `k = j`. -/
theorem addToBucket_length (b : Buckets) (j k : String) (m : MovieRecord) :
    ((addToBucket b j m) k).length = (b k).length + (if k = j then 1 else 0) := by
  unfold addToBucket
  by_cases h : k = j <;> simp [h]

/-- Folding the genre loop of `classify_movies` over a genre list grows
bucket `k` by the number of genres whose target bucket is `k`. -/
theorem bucketFold_length (m : MovieRecord) (k : String) :
    ∀ (gs : List String) (b : Buckets),
      ((gs.foldl (fun acc g => if g ∈ bucketKeys then addToBucket acc g m
          else addToBucket acc "Unknown" m) b) k).length
        = (b k).length + (gs.map bucketTarget).count k := by
  intro gs
  induction gs with
  | nil => intro b; simp
  | cons g rest ih =>
    intro b
    rw [List.foldl_cons, ih, List.map_cons, List.count_cons]
    by_cases hg : g ∈ bucketKeys
    · rw [if_pos hg, addToBucket_length, show bucketTarget g = g from if_pos hg]
      by_cases hk : k = g
      · simp [hk]
        omega
      · simp [hk]
        exact fun h => hk h.symm
    · rw [if_neg hg, addToBucket_length, show bucketTarget g = "Unknown" from if_neg hg]
      by_cases hk : k = "Unknown"
      · simp [hk]
        omega
      · simp [hk]
        exact fun h => hk h.symm

/-- For a taxonomy key, counting target hits is counting the genre itself. -/
theorem count_bucketTarget_taxonomy (k : String) (hk : k ∈ DEFAULT_GENRES) :
    ∀ gs : List String, (gs.map bucketTarget).count k = gs.count k := by
  intro gs
  induction gs with
  | nil => rfl
  | cons g rest ih =>
    rw [List.map_cons, List.count_cons, List.count_cons, ih]
    by_cases hg : g ∈ bucketKeys
    · rw [show bucketTarget g = g from if_pos hg]
    · rw [show bucketTarget g = "Unknown" from if_neg hg]
      have hgk : ¬k = g := fun h =>
        hg ((h ▸ List.mem_append_left ["Unknown"] hk : (g : String) ∈ bucketKeys))
      have hku : ¬k = "Unknown" := fun h => by
        have h2 : "Unknown" ∈ DEFAULT_GENRES := h ▸ hk
        revert h2
        decide
      have hku2 : ¬("Unknown" : String) = k := fun h => hku h.symm
      have hgk2 : ¬g = k := fun h => hgk h.symm
      simp [hku2, hgk2]

/-- For the `"Unknown"` key, counting target hits is counting the genres
outside the taxonomy. -/
theorem count_bucketTarget_unknown :
    ∀ gs : List String,
      (gs.map bucketTarget).count "Unknown"
        = gs.countP (fun g => !(DEFAULT_GENRES.contains g)) := by
  intro gs
  induction gs with
  | nil => rfl
  | cons g rest ih =>
    rw [List.map_cons, List.count_cons, List.countP_cons, ih]
    by_cases hd : g ∈ DEFAULT_GENRES
    · have hg : g ∈ bucketKeys := List.mem_append_left ["Unknown"] hd
      rw [show bucketTarget g = g from if_pos hg]
      have hgu : ¬("Unknown" : String) = g := fun h => by
        have h2 : "Unknown" ∈ DEFAULT_GENRES := h ▸ hd
        revert h2
        decide
      simp [hd]
      exact fun h => hgu h.symm
    · by_cases hg : g ∈ bucketKeys
      · have hgu : g = "Unknown" := by
          rcases List.mem_append.mp hg with h | h
          · exact absurd h hd
          · simpa using h
        rw [show bucketTarget g = "Unknown" from
          (show bucketTarget g = g from if_pos hg).trans hgu]
        simp [hd]
      · rw [show bucketTarget g = "Unknown" from if_neg hg]
        simp [hd]

/-- The buckets of a run are the fold of the per-record filing step over the
per-title records. -/
theorem classifyGo_buckets (env : Env) :
    ∀ (ts : List String) (b : Buckets) (p : List MovieRecord) (cache : Cache),
      (classifyGo env b p cache ts).classified_movies
        = (recordsOf env cache ts).foldl fileRecord b := by
  intro ts
  induction ts with
  | nil => intro b p cache; rfl
  | cons t rest ih =>
    intro b p cache
    simp only [classifyGo, recordsOf, ih, List.foldl_cons]

/-- Claim C4: the classification buckets are built by filing each processed
record in turn, and filing one record with a non-empty genre list of length
`N` makes it appear `N` more times across the buckets: once in bucket `k`
for each of its genres equal to taxonomy key `k`, and once in the
`"Unknown"` bucket for each of its genres that is not a taxonomy key. -/
theorem C4_bucket_fanout :
    (∀ (env : Env) (cache : Cache) (titles : List String),
      (classify_movies env cache titles).classified_movies
        = (recordsOf env cache titles).foldl fileRecord emptyBuckets) ∧
    (∀ (b : Buckets) (m : MovieRecord), m.genres ≠ [] →
      (∀ k, k ∈ DEFAULT_GENRES →
        ((fileRecord b m) k).length = (b k).length + m.genres.count k) ∧
      ((fileRecord b m) "Unknown").length
        = (b "Unknown").length + m.genres.countP (fun g => !(DEFAULT_GENRES.contains g))) := by
  constructor
  · intro env cache titles
    exact classifyGo_buckets env titles emptyBuckets [] cache
  · intro b m hm
    constructor
    · intro k hk
      rw [fileRecord, if_neg hm, bucketFold_length, count_bucketTarget_taxonomy k hk]
    · rw [fileRecord, if_neg hm, bucketFold_length, count_bucketTarget_unknown]

/-- The record of the fan-out example of the spec: genres
`["Drama", "Bogus"]` where `"Bogus"` is not in the taxonomy. -/
def dramaBogusRecord : MovieRecord :=
  { title := "Z", genres := ["Drama", "Bogus"], year := "2015", overview := "",
    rating := none, source := "OMDb", omdb := none }

/-- Claim C4 witness: filing the `["Drama", "Bogus"]` record puts it once in
the `"Drama"` bucket and once in the `"Unknown"` bucket. -/
theorem C4_bucket_fanout_witness :
    dramaBogusRecord.genres ≠ [] ∧ "Drama" ∈ DEFAULT_GENRES ∧
    ((fileRecord emptyBuckets dramaBogusRecord) "Drama").length
      = (emptyBuckets "Drama").length + dramaBogusRecord.genres.count "Drama" ∧
    ((fileRecord emptyBuckets dramaBogusRecord) "Unknown").length
      = (emptyBuckets "Unknown").length
        + dramaBogusRecord.genres.countP (fun g => !(DEFAULT_GENRES.contains g)) ∧
    (fileRecord emptyBuckets dramaBogusRecord) "Drama" = [dramaBogusRecord] ∧
    (fileRecord emptyBuckets dramaBogusRecord) "Unknown" = [dramaBogusRecord] :=
  ⟨by decide, by decide,
   (C4_bucket_fanout.2 emptyBuckets dramaBogusRecord (by decide)).1 "Drama" (by decide),
   (C4_bucket_fanout.2 emptyBuckets dramaBogusRecord (by decide)).2,
   by decide, by decide⟩

/-- `get_movie_data` written as the mapping of the search output. -/
theorem get_movie_data_eq (env : Env) (cache : Cache) (t : String) :
    get_movie_data env cache t =
      ⟨match (search_movie_omdb env cache t).result with
        | some d => foundRecord t d
        | none => defaultRecord t,
       (search_movie_omdb env cache t).cache,
       (search_movie_omdb env cache t).netCalls⟩ := by
  rcases hs : search_movie_omdb env cache t with ⟨res, c2, n⟩
  cases res <;> rw [get_movie_data, hs]

/-- A record with source `"OMDb"` comes from a found payload. -/
theorem search_some_of_found (env : Env) (cache : Cache) (t : String)
    (h : (get_movie_data env cache t).result.source = "OMDb") :
    ∃ d, (search_movie_omdb env cache t).result = some d := by
  rcases hs : search_movie_omdb env cache t with ⟨res, c2, n⟩
  cases res with
  | some d => exact ⟨d, rfl⟩
  | none =>
    rw [get_movie_data, hs] at h
    simp [defaultRecord] at h

/-- A found payload needs a non-rejected credential. -/
theorem key_ok_of_search_some (env : Env) (cache : Cache) (t : String)
    (d : OmdbPayload) (h : (search_movie_omdb env cache t).result = some d) :
    ¬(env.omdb_api_key = "" ∨ env.omdb_api_key = "4bcd5aba") := by
  intro hk
  have hs : search_movie_omdb env cache t = ⟨none, cache, 0⟩ := by
    unfold search_movie_omdb
    rw [if_pos hk]
  rw [hs] at h
  simp at h

/-- With a non-rejected credential a cache file holding the payload makes
the search a pure cache hit: zero network calls, cache unchanged. -/
theorem search_cache_hit (env : Env) (cache : Cache) (t : String) (d : OmdbPayload)
    (hk : ¬(env.omdb_api_key = "" ∨ env.omdb_api_key = "4bcd5aba"))
    (hcc : cache (cacheKey t) = some (CacheFile.omdbEntry d)) :
    search_movie_omdb env cache t = ⟨some d, cache, 0⟩ := by
  unfold search_movie_omdb
  rw [if_neg hk, hcc]

/-- A readable cached `omdb` entry is exactly a `some` of `cacheLookup`. -/
theorem cacheLookup_eq_some (cache : Cache) (t : String) (d : OmdbPayload)
    (h : cacheLookup cache t = some d) :
    cache (cacheKey t) = some (CacheFile.omdbEntry d) := by
  revert h
  unfold cacheLookup
  cases hcf : cache (cacheKey t) with
  | none => intro h; simp at h
  | some f =>
    cases f with
    | omdbEntry d0 => intro h; simp only [Option.some.injEq] at h; rw [h]
    | unreadable => intro h; simp at h
    | noOmdbKey => intro h; simp at h

/-- On a cache miss, a transport error gives one network call and `None`. -/
theorem search_miss_err (env : Env) (cache : Cache) (t : String)
    (hk : ¬(env.omdb_api_key = "" ∨ env.omdb_api_key = "4bcd5aba"))
    (hcc : cacheLookup cache t = none) (hn : env.network t = NetResult.error) :
    search_movie_omdb env cache t = ⟨none, cache, 1⟩ := by
  cases hcf : cache (cacheKey t) with
  | none => simp [search_movie_omdb, hk, hcf, hn]
  | some f =>
    cases f with
    | omdbEntry d0 => simp [cacheLookup, hcf] at hcc
    | unreadable => simp [search_movie_omdb, hk, hcf, hn]
    | noOmdbKey => simp [search_movie_omdb, hk, hcf, hn]

/-- On a cache miss, a successful-match payload gives one network call, the
payload, and a best-effort cache write. -/
theorem search_miss_ok_true (env : Env) (cache : Cache) (t : String) (data : OmdbPayload)
    (hk : ¬(env.omdb_api_key = "" ∨ env.omdb_api_key = "4bcd5aba"))
    (hcc : cacheLookup cache t = none) (hn : env.network t = NetResult.ok data)
    (hr : data.Response = some "True") :
    search_movie_omdb env cache t =
      ⟨some data,
       if env.cacheWriteOk then cacheWrite cache (cacheKey t) (CacheFile.omdbEntry data)
       else cache,
       1⟩ := by
  cases hcf : cache (cacheKey t) with
  | none => simp [search_movie_omdb, hk, hcf, hn, hr]
  | some f =>
    cases f with
    | omdbEntry d0 => simp [cacheLookup, hcf] at hcc
    | unreadable => simp [search_movie_omdb, hk, hcf, hn, hr]
    | noOmdbKey => simp [search_movie_omdb, hk, hcf, hn, hr]

/-- On a cache miss, a no-match payload gives one network call and `None`. -/
theorem search_miss_ok_false (env : Env) (cache : Cache) (t : String) (data : OmdbPayload)
    (hk : ¬(env.omdb_api_key = "" ∨ env.omdb_api_key = "4bcd5aba"))
    (hcc : cacheLookup cache t = none) (hn : env.network t = NetResult.ok data)
    (hr : ¬data.Response = some "True") :
    search_movie_omdb env cache t = ⟨none, cache, 1⟩ := by
  cases hcf : cache (cacheKey t) with
  | none => simp [search_movie_omdb, hk, hcf, hn, hr]
  | some f =>
    cases f with
    | omdbEntry d0 => simp [cacheLookup, hcf] at hcc
    | unreadable => simp [search_movie_omdb, hk, hcf, hn, hr]
    | noOmdbKey => simp [search_movie_omdb, hk, hcf, hn, hr]

/-- After a search that found a payload (with cache writes succeeding), the
resulting cache holds that payload at the key of the title, and at most one
network call was issued. -/
theorem search_some_post (env : Env) (cache : Cache) (t : String) (d : OmdbPayload)
    (hw : env.cacheWriteOk = true)
    (h : (search_movie_omdb env cache t).result = some d) :
    (search_movie_omdb env cache t).cache (cacheKey t) = some (CacheFile.omdbEntry d) ∧
    (search_movie_omdb env cache t).netCalls ≤ 1 := by
  have hk := key_ok_of_search_some env cache t d h
  cases hcl : cacheLookup cache t with
  | some d0 =>
    have hcf := cacheLookup_eq_some cache t d0 hcl
    have hs := search_cache_hit env cache t d0 hk hcf
    rw [hs] at h
    simp only [Option.some.injEq] at h
    subst h
    rw [hs]
    exact ⟨hcf, by norm_num⟩
  | none =>
    cases hn : env.network t with
    | error =>
      rw [search_miss_err env cache t hk hcl hn] at h
      simp at h
    | ok data =>
      by_cases hr : data.Response = some "True"
      · have hs := search_miss_ok_true env cache t data hk hcl hn hr
        rw [hw, if_pos rfl] at hs
        rw [hs] at h
        simp only [Option.some.injEq] at h
        subst h
        rw [hs]
        refine ⟨?_, by norm_num⟩
        show cacheWrite cache (cacheKey t) (CacheFile.omdbEntry data) (cacheKey t) = _
        rw [cacheWrite, if_pos rfl]
      · rw [search_miss_ok_false env cache t data hk hcl hn hr] at h
        simp at h

/-- Claim C6 (amended): when the first fetch of a title produces a
successful match and the cache write succeeds, fetching twice issues at
most one network call in total — the first fetch needs at most one call,
and a second fetch of the same title returns the very same record from the
cached raw payload with zero network calls; a second fetch of any title
with the same lowercased (normalized) form also issues zero network calls
and carries the same cached raw payload.  (Without a successful first
match nothing is cached and each fetch issues its own call; see the
counterexample.) -/
theorem C6_cache_round_trip (env : Env) (cache : Cache) (t : String)
    (hw : env.cacheWriteOk = true)
    (hf : (get_movie_data env cache t).result.source = "OMDb") :
    (get_movie_data env cache t).netCalls ≤ 1 ∧
    get_movie_data env (get_movie_data env cache t).cache t =
      ⟨(get_movie_data env cache t).result, (get_movie_data env cache t).cache, 0⟩ ∧
    (∀ t2, pyLower t2 = pyLower t →
      (get_movie_data env (get_movie_data env cache t).cache t2).netCalls = 0 ∧
      (get_movie_data env (get_movie_data env cache t).cache t2).result.omdb =
        (get_movie_data env cache t).result.omdb) := by
  obtain ⟨d, hd⟩ := search_some_of_found env cache t hf
  have hk := key_ok_of_search_some env cache t d hd
  have hpost := search_some_post env cache t d hw hd
  have hg1 := get_movie_data_eq env cache t
  simp only [hd] at hg1
  have hs2 := search_cache_hit env (search_movie_omdb env cache t).cache t d hk hpost.1
  have hg2 := get_movie_data_eq env (search_movie_omdb env cache t).cache t
  simp only [hs2] at hg2
  refine ⟨?_, ?_, ?_⟩
  · rw [hg1]
    exact hpost.2
  · rw [hg1]
    exact hg2
  · intro t2 ht2
    have hkey : cacheKey t2 = cacheKey t := by rw [cacheKey, cacheKey, ht2]
    have hs3 := search_cache_hit env (search_movie_omdb env cache t).cache t2 d hk
      (by rw [hkey]; exact hpost.1)
    have hg3 := get_movie_data_eq env (search_movie_omdb env cache t).cache t2
    simp only [hs3] at hg3
    constructor
    · rw [hg1]
      show (get_movie_data env (search_movie_omdb env cache t).cache t2).netCalls = 0
      rw [hg3]
    · rw [hg1]
      show (get_movie_data env (search_movie_omdb env cache t).cache t2).result.omdb
          = (foundRecord t d).omdb
      rw [hg3]
      rfl

/-- Claim C6 witness: at the Matrix environment, the first fetch makes one
call at most, the repeat fetch of the identical title returns the same
record with zero calls, and a differently-cased form of the title also hits
the cache. -/
theorem C6_cache_round_trip_witness :
    envMatrix.cacheWriteOk = true ∧
    (get_movie_data envMatrix noCache "The Matrix").result.source = "OMDb" ∧
    (get_movie_data envMatrix noCache "The Matrix").netCalls ≤ 1 ∧
    (get_movie_data envMatrix (get_movie_data envMatrix noCache "The Matrix").cache
        "The Matrix" =
      ⟨(get_movie_data envMatrix noCache "The Matrix").result,
       (get_movie_data envMatrix noCache "The Matrix").cache, 0⟩) ∧
    pyLower "the matrix" = pyLower "The Matrix" ∧
    (get_movie_data envMatrix (get_movie_data envMatrix noCache "The Matrix").cache
        "the matrix").netCalls = 0 ∧
    (get_movie_data envMatrix (get_movie_data envMatrix noCache "The Matrix").cache
        "the matrix").result.omdb =
      (get_movie_data envMatrix noCache "The Matrix").result.omdb :=
  ⟨by decide, by decide,
   (C6_cache_round_trip envMatrix noCache "The Matrix" (by decide) (by decide)).1,
   (C6_cache_round_trip envMatrix noCache "The Matrix" (by decide) (by decide)).2.1,
   by decide,
   ((C6_cache_round_trip envMatrix noCache "The Matrix" (by decide) (by decide)).2.2
     "the matrix" (by decide)).1,
   ((C6_cache_round_trip envMatrix noCache "The Matrix" (by decide) (by decide)).2.2
     "the matrix" (by decide)).2⟩

/-- Claim C6 counterexample: with a no-match reply, nothing is cached, so
fetching the same title twice issues two network calls, not at most one —
refuting the claim as stated for every title. -/
theorem C6_counterexample_two_calls_on_no_match :
    (get_movie_data envNoMatch noCache "x").netCalls = 1 ∧
    (get_movie_data envNoMatch (get_movie_data envNoMatch noCache "x").cache "x").netCalls
      = 1 ∧
    ¬((get_movie_data envNoMatch noCache "x").netCalls +
        (get_movie_data envNoMatch
          (get_movie_data envNoMatch noCache "x").cache "x").netCalls ≤ 1) := by
  refine ⟨by decide, by decide, by decide⟩

/-- Claim C8 (amended): for an empty processed list `get_statistics` returns
the empty dict — no `success_rate` entry at all, rather than one equal to
`0` — and in particular no division error; for a non-empty processed list
it returns the statistics with
`success_rate = found_movies / total_movies * 100` (the divisor is then
positive, so the guarded `else 0` branch is dead). -/
theorem C8_success_rate_empty_and_formula (processed : List MovieRecord) :
    (processed = [] → get_statistics processed = none) ∧
    (processed ≠ [] →
      ∃ s, get_statistics processed = some s ∧
        s.total_movies = processed.length ∧
        s.found_movies = (processed.filter (fun m => m.source ≠ "Not Found")).length ∧
        s.success_rate = ((s.found_movies : ℚ) / (s.total_movies : ℚ)) * 100) := by
  constructor
  · intro h
    rw [get_statistics, if_pos h]
  · intro h
    rw [get_statistics, if_neg h]
    refine ⟨_, rfl, rfl, rfl, ?_⟩
    show (if 0 < processed.length
        then (((processed.filter (fun m => m.source ≠ "Not Found")).length : ℚ)
          / (processed.length : ℚ)) * 100
        else 0) = _
    rw [if_pos (List.length_pos.mpr h)]

/-- Claim C8 witness: a one-record processed list satisfies the non-empty
hypothesis, and its statistics carry the quotient formula. -/
theorem C8_success_rate_empty_and_formula_witness :
    ([defaultRecord "x"] : List MovieRecord) ≠ [] ∧
    (∃ s, get_statistics [defaultRecord "x"] = some s ∧
      s.total_movies = ([defaultRecord "x"] : List MovieRecord).length ∧
      s.found_movies =
        (([defaultRecord "x"] : List MovieRecord).filter
          (fun m => m.source ≠ "Not Found")).length ∧
      s.success_rate = ((s.found_movies : ℚ) / (s.total_movies : ℚ)) * 100) :=
  ⟨by decide, (C8_success_rate_empty_and_formula [defaultRecord "x"]).2 (by decide)⟩

/-- Claim C8 counterexample: on the empty processed list the code returns
the empty dict, so there is no `success_rate` equal to `0` — refuting the
claim that an empty run yields a statistics mapping with
`success_rate = 0`. -/
theorem C8_counterexample_empty_returns_empty_dict :
    get_statistics [] = none ∧
    (get_statistics []).map Stats.success_rate ≠ some 0 :=
  ⟨rfl, by simp [get_statistics]⟩

/-- A list of characters that never holds the en-dash splits into itself. -/
theorem splitEnDash_no_dash :
    ∀ l : List Char, enDash ∉ l → splitEnDash l = [l] := by
  intro l
  induction l with
  | nil => intro _; rfl
  | cons c rest ih =>
    intro h
    have hc : ¬c = enDash := fun hc => h (hc ▸ List.mem_cons_self c rest)
    have hrest : enDash ∉ rest := fun hr => h (List.mem_cons_of_mem c hr)
    rw [splitEnDash, if_neg hc, ih hrest]

/-- Deleting the en-dash leaves no en-dash behind. -/
theorem replaceEnDash_no_dash (l : List Char) : enDash ∉ replaceEnDash l := by
  intro h
  rw [replaceEnDash] at h
  have h2 := List.of_mem_filter h
  simp at h2

/-- The year extraction is the en-dash deletion alone: the split-then-index
step is a no-op on a string with no en-dash left. -/
theorem yearOf_eq_replace (y : String) : yearOf y = ⟨replaceEnDash y.data⟩ := by
  rw [yearOf, splitEnDash_no_dash _ (replaceEnDash_no_dash y.data)]
  rfl

/-- Claim C9 (amended): for a successful payload the record year equals the
`Year` string with every en-dash deleted — the source replaces the en-dash
away BEFORE splitting on it, so `"2019–"` maps to `"2019"`, but a full
range `"2015–2019"` maps to the concatenation `"20152019"`, not to the
first segment. -/
theorem C9_year_deletes_all_en_dashes (env : Env) (cache : Cache) (t : String)
    (d : OmdbPayload) (hd : (search_movie_omdb env cache t).result = some d) :
    (get_movie_data env cache t).result.year
      = ⟨replaceEnDash (d.Year.getD "Unknown").data⟩ := by
  have hg := get_movie_data_eq env cache t
  simp only [hd] at hg
  rw [hg]
  show yearOf (d.Year.getD "Unknown") = _
  rw [yearOf_eq_replace]

/-- Claim C9 witness: the range payload satisfies the hypothesis and its
record year is the en-dash-deleted string. -/
theorem C9_year_deletes_all_en_dashes_witness :
    (search_movie_omdb envRange noCache "x").result = some rangePayload ∧
    (get_movie_data envRange noCache "x").result.year
      = ⟨replaceEnDash (rangePayload.Year.getD "Unknown").data⟩ :=
  ⟨by decide,
   C9_year_deletes_all_en_dashes envRange noCache "x" rangePayload (by decide)⟩

/-- Claim C9 counterexample: the payload year `"2015–2019"` yields the
record year `"20152019"`, not the first segment `"2015"` — refuting the
claim as stated. -/
theorem C9_counterexample_range_concatenated :
    (get_movie_data envRange noCache "x").result.year = "20152019" ∧
    ("20152019" : String) ≠ "2015" :=
  ⟨by decide, by decide⟩

/-- Claim C10 (amended): the exporter produces one flat row per record in
order, with `Genres` the genre list joined with `", "`, and with the
`Rating` cell equal to the stored rating value — which is the null value
(Python `None`), NOT the literal string `"N/A"`, whenever the rating is
absent: every record dict carries the `rating` key, so the `"N/A"` default
of `.get` never applies. -/
theorem C10_export_rows (processed : List MovieRecord) :
    (export_to_dataframe processed).length = processed.length ∧
    ∀ (i : Nat) (h1 : i < (export_to_dataframe processed).length)
      (h2 : i < processed.length),
      (export_to_dataframe processed).get ⟨i, h1⟩ =
        { Title := (processed.get ⟨i, h2⟩).title
          Year := (processed.get ⟨i, h2⟩).year
          Genres := joinCommaSpace (processed.get ⟨i, h2⟩).genres
          Rating := (processed.get ⟨i, h2⟩).rating
          Overview := (processed.get ⟨i, h2⟩).overview
          Source := (processed.get ⟨i, h2⟩).source } := by
  constructor
  · rw [export_to_dataframe, List.length_map]
  · intro i h1 h2
    simp only [export_to_dataframe, List.get_eq_getElem, List.getElem_map]

/-- Claim C10 witness: exporting one not-found record yields one row whose
`Rating` cell is the null value. -/
theorem C10_export_rows_witness :
    (export_to_dataframe [defaultRecord "x"]).length = 1 ∧
    (export_to_dataframe [defaultRecord "x"]).get ⟨0, by decide⟩ =
      { Title := "x", Year := "Unknown", Genres := "Unknown", Rating := none,
        Overview := "No information available", Source := "Not Found" } :=
  ⟨(C10_export_rows [defaultRecord "x"]).1.trans (by decide),
   ((C10_export_rows [defaultRecord "x"]).2 0 (by decide) (by decide)).trans (by decide)⟩

/-- Claim C10 counterexample: the `Rating` cell of an absent-rating record
is the null value, not the literal `"N/A"` — refuting the claim as
stated. -/
theorem C10_counterexample_rating_cell_none :
    (export_to_dataframe [defaultRecord "x"]).map Row.Rating = [none] ∧
    (none : Option String) ≠ some "N/A" :=
  ⟨by decide, by decide⟩

end MovieSpec
